import Mathlib

/-!
# Bid scoring engine (`go-scoring/main.go`)

A shallow embedding of the scoring engine of `go-scoring/main.go`:
`scoreBid` and the three dimension scorers `calculateTechnicalScore`,
`calculateCommercialScore`, `calculateFinancialScore`.

## Numbers

The program computes with Go `float64`.  The source adds and compares decimal
constants such as `0.7`, `0.2`, `0.1`, none of which is a binary fraction, so
the results depend on the rounding of every single operation.  The embedding
therefore carries an exact integer model of binary64:

* every finite binary64 value is an integer multiple of `2^-1074` (the
  smallest subnormal); `F64.fin k` denotes `k * 2^-1074`;
* `F64.inf neg` is the infinity of the given sign, `F64.nan` is NaN;
* an operation computes its exact result as a fraction `n / d` of such units
  and rounds it to the nearest value with a 53-bit significand, ties to even
  (`roundMag`), overflowing to infinity from `2^1024` on (`F64.round`);
* a decimal constant of the source is the rounding of its exact value
  (`F64.lit`), as the Go compiler converts an untyped constant to `float64`.

The two zeros of binary64 are identified (`F64.fin 0`): they compare equal
and no operation of the program tells them apart.

## Fused multiply-add

The Go specification lets an implementation fuse a product into the addition
that consumes it (`x*y + z` with a single rounding); the compiler does so on
`arm64` and with `GOAMD64=v3`, and does not on the default `amd64` target.
The only products of the program are those of the weighted total
(lines 139-141).  `Build` records which of them a build fuses, `ffma` is the
fused operation, and `scoreBid` takes the build as a parameter: what is
proved for every `build` holds however the program was compiled.
-/

namespace GoScoring

/-! ## binary64 -/

/-- A `float64` value: NaN, an infinity, or the finite value `k * 2^-1074`. -/
inductive F64 where
  | nan : F64
  | inf (neg : Bool) : F64
  | fin (k : Int) : F64
  deriving DecidableEq

/-- Nearest integer to `n / d`, ties to the even one. -/
def rne (n d : Nat) : Nat :=
  let q := n / d
  let r := n % d
  if 2 * r < d then q
  else if d < 2 * r then q + 1
  else if q % 2 = 0 then q else q + 1

/-- Number of halvings that bring `q` below `2^53`: `0` when `q < 2^53`, and
`⌊log₂ q⌋ - 52` otherwise.  The first argument bounds the number of steps;
`q` itself always suffices. -/
def excessBits : Nat → Nat → Nat
  | 0, _ => 0
  | fuel + 1, q => if q < 2 ^ 53 then 0 else excessBits fuel (q / 2) + 1

/-- Nearest binary64 magnitude (in units of `2^-1074`) to `n / d`: below
`2^53` units the representable values are the integers, and from `2^(52+s)`
to `2^(53+s)` they are the multiples of `2^s`. -/
def roundMag (n d : Nat) : Nat :=
  let s := excessBits (n / d) (n / d)
  rne n (d * 2 ^ s) * 2 ^ s

/-- Rounding of the exact value `± n / d` (in units of `2^-1074`); a rounded
magnitude of `2^1024 = 2^2098` units or more overflows to infinity. -/
def F64.round (neg : Bool) (n d : Nat) : F64 :=
  let m := roundMag n d
  if 2 ^ 2098 ≤ m then F64.inf neg
  else F64.fin (if neg then -(m : Int) else (m : Int))

/-- The `float64` value of the non-negative decimal constant `n / d`. -/
def F64.lit (n d : Nat) : F64 := F64.round false (n * 2 ^ 1074) d

/-- Go `a + b` on `float64`. -/
def fadd : F64 → F64 → F64
  | F64.nan, _ => F64.nan
  | _, F64.nan => F64.nan
  | F64.inf a, F64.inf b => if a = b then F64.inf a else F64.nan
  | F64.inf a, F64.fin _ => F64.inf a
  | F64.fin _, F64.inf b => F64.inf b
  | F64.fin a, F64.fin b => F64.round (decide (a + b < 0)) (a + b).natAbs 1

/-- Go `a * b` on `float64`. -/
def fmul : F64 → F64 → F64
  | F64.nan, _ => F64.nan
  | _, F64.nan => F64.nan
  | F64.inf a, F64.inf b => F64.inf (xor a b)
  | F64.inf a, F64.fin k => if k = 0 then F64.nan else F64.inf (xor a (decide (k < 0)))
  | F64.fin k, F64.inf b => if k = 0 then F64.nan else F64.inf (xor (decide (k < 0)) b)
  | F64.fin a, F64.fin b => F64.round (decide (a * b < 0)) (a * b).natAbs (2 ^ 1074)

/-- The fused multiply-add `x * y + z`: the exact product and sum, rounded
once.  A product with an infinite or NaN factor is exact as it is. -/
def ffma (x y z : F64) : F64 :=
  match x, y with
  | F64.fin a, F64.fin b =>
    match z with
    | F64.nan => F64.nan
    | F64.inf c => F64.inf c
    | F64.fin c =>
      F64.round (decide (a * b + c * Int.ofNat (2 ^ 1074) < 0))
        (a * b + c * Int.ofNat (2 ^ 1074)).natAbs (2 ^ 1074)
  | _, _ => fadd (fmul x y) z

/-- A finite `float64`: a magnitude of at most `MaxFloat64`, which is
`(2^53 - 1) * 2^971`, that is `(2^53 - 1) * 2^2045` units.  Every number that
`encoding/json` decodes into a `float64` is finite. -/
def F64.isFinite : F64 → Bool
  | F64.fin k => decide (k.natAbs ≤ (2 ^ 53 - 1) * 2 ^ 2045)
  | _ => false

/-- Go `a < b` on `float64`: false as soon as an operand is NaN. -/
def flt : F64 → F64 → Bool
  | F64.nan, _ => false
  | _, F64.nan => false
  | F64.inf a, F64.inf b => a && !b
  | F64.inf a, F64.fin _ => a
  | F64.fin _, F64.inf b => !b
  | F64.fin a, F64.fin b => decide (a < b)

/-- Go `a <= b` on `float64`: false as soon as an operand is NaN. -/
def fle : F64 → F64 → Bool
  | F64.nan, _ => false
  | _, F64.nan => false
  | F64.inf a, F64.inf b => a || !b
  | F64.inf a, F64.fin _ => a
  | F64.fin _, F64.inf b => !b
  | F64.fin a, F64.fin b => decide (a ≤ b)

/-- Go `a > b` on `float64`. -/
def fgt (a b : F64) : Bool := flt b a

/-- Go `a >= b` on `float64`. -/
def fge (a b : F64) : Bool := fle b a

/-! ## Data model -/

/-- A Go `interface{}` value as `encoding/json` decodes it: `nil`, `bool`,
`float64`, `string`, `[]interface{}` or `map[string]interface{}`. -/
inductive Value where
  | null : Value
  | bool (b : Bool) : Value
  | num (f : F64) : Value
  | str (s : String) : Value
  | list (xs : List Value) : Value
  | obj (kvs : List (String × Value)) : Value

/-- A Go `map[string]interface{}`: `none` is the nil map. -/
abbrev GoMap := Option (List (String × Value))

/-- The two-result lookup `v, ok := m[key]`; reading a nil map finds nothing. -/
def GoMap.get (m : GoMap) (key : String) : Option Value :=
  match m with
  | none => none
  | some kvs => kvs.lookup key

/-- Source: `type BidData struct`. -/
structure BidData where
  ID : String
  TenderID : String
  VendorID : String
  TechnicalProposal : GoMap
  CommercialProposal : GoMap
  FinancialProposal : GoMap

/-- Source: `type ScoringCriteria struct`. -/
structure ScoringCriteria where
  TechnicalWeight : F64
  CommercialWeight : F64
  FinancialWeight : F64
  Criteria : GoMap

/-- Source: `type ScoreResult struct`. -/
structure ScoreResult where
  BidID : String
  TechnicalScore : F64
  CommercialScore : F64
  FinancialScore : F64
  TotalScore : F64
  Recommendation : String
  RiskAssessment : String

/-! ## Dimension scorers -/

/-- Source: `calculateTechnicalScore` (lines 181-202). -/
def calculateTechnicalScore (proposal : GoMap) (_criteria : GoMap) : F64 :=
  let score := F64.lit 7 10
  let score :=
    match proposal.get "experience" with
    | some (Value.num exp) => if fgt exp (F64.lit 5 1) then fadd score (F64.lit 2 10) else score
    | _ => score
  let score :=
    match proposal.get "certifications" with
    | some (Value.list certs) => if certs.length > 3 then fadd score (F64.lit 1 10) else score
    | _ => score
  if fgt score (F64.lit 1 1) then F64.lit 1 1 else score

/-- Source: `calculateCommercialScore` (lines 204-224). -/
def calculateCommercialScore (proposal : GoMap) (_criteria : GoMap) : F64 :=
  let score := F64.lit 6 10
  let score :=
    match proposal.get "deliveryTime" with
    | some (Value.num delivery) =>
        if fle delivery (F64.lit 30 1) then fadd score (F64.lit 3 10) else score
    | _ => score
  let score :=
    match proposal.get "warranty" with
    | some (Value.num warr) => if fge warr (F64.lit 12 1) then fadd score (F64.lit 1 10) else score
    | _ => score
  if fgt score (F64.lit 1 1) then F64.lit 1 1 else score

/-- Source: `calculateFinancialScore` (lines 226-245). -/
def calculateFinancialScore (proposal : GoMap) (_criteria : GoMap) : F64 :=
  let score := F64.lit 5 10
  match proposal.get "totalPrice" with
  | some (Value.num totalPrice) =>
      if fle totalPrice (F64.lit 100000 1) then F64.lit 1 1
      else if fle totalPrice (F64.lit 500000 1) then F64.lit 8 10
      else if fle totalPrice (F64.lit 1000000 1) then F64.lit 6 10
      else F64.lit 3 10
  | _ => score

/-! ## The scoring engine -/

/-- How a build evaluates the first addition `t*wt + c*wc` of the total: both
products rounded, or the left or the right product fused into the addition. -/
inductive FirstSum where
  | separate : FirstSum
  | fuseLeft : FirstSum
  | fuseRight : FirstSum
  deriving DecidableEq

/-- The floating-point code of a build for lines 139-141: how the first
addition is evaluated, and whether the product `f*wf` is fused into the second
addition. -/
structure Build where
  firstSum : FirstSum
  fuseSecond : Bool
  deriving DecidableEq

/-- A build that fuses nothing (the default `amd64` target). -/
def Build.unfused : Build := { firstSum := FirstSum.separate, fuseSecond := false }

/-- The weighted total of `scoreBid` (lines 138-141),
`(t * wt) + (c * wc) + (f * wf)`, as a function of the three dimension
scores, evaluated as the build does. -/
def weightedTotal (build : Build) (technicalScore commercialScore financialScore : F64)
    (criteria : ScoringCriteria) : F64 :=
  let firstSum :=
    match build.firstSum with
    | FirstSum.separate =>
        fadd (fmul technicalScore criteria.TechnicalWeight)
          (fmul commercialScore criteria.CommercialWeight)
    | FirstSum.fuseLeft =>
        ffma technicalScore criteria.TechnicalWeight
          (fmul commercialScore criteria.CommercialWeight)
    | FirstSum.fuseRight =>
        ffma commercialScore criteria.CommercialWeight
          (fmul technicalScore criteria.TechnicalWeight)
  if build.fuseSecond then ffma financialScore criteria.FinancialWeight firstSum
  else fadd firstSum (fmul financialScore criteria.FinancialWeight)

/-- The risk ladder of `scoreBid` (lines 143-151). -/
def riskAssessment (totalScore : F64) : String :=
  if flt totalScore (F64.lit 2 10) then "HIGH_RISK"
  else if flt totalScore (F64.lit 6 10) then "MEDIUM_RISK"
  else "LOW_RISK"

/-- The recommendation ladder of `scoreBid` (lines 153-163). -/
def recommendation (totalScore : F64) : String :=
  if fge totalScore (F64.lit 8 10) then "STRONGLY_RECOMMENDED"
  else if fge totalScore (F64.lit 6 10) then "RECOMMENDED"
  else if fge totalScore (F64.lit 4 10) then "CONDITIONAL"
  else "NOT_RECOMMENDED"

/-- Source: `scoreBid` (lines 115-178).  The `(*ScoreResult, error)` pair is
an `Except`; the audit line written with `log.Printf` has no effect on the
result and is left out.  `build` is the build of the program (see `Build`). -/
def scoreBid (build : Build) (bidData : BidData) (criteria : ScoringCriteria)
    (userRole : String) : Except String ScoreResult :=
  if userRole ≠ "USER" ∧ userRole ≠ "ADMIN" then
    Except.error "forbidden: insufficient permissions for scoring"
  else
    let technicalScore :=
      if bidData.TechnicalProposal.isSome then
        calculateTechnicalScore bidData.TechnicalProposal criteria.Criteria
      else F64.fin 0
    let commercialScore :=
      if bidData.CommercialProposal.isSome then
        calculateCommercialScore bidData.CommercialProposal criteria.Criteria
      else F64.fin 0
    let financialScore :=
      if bidData.FinancialProposal.isSome then
        calculateFinancialScore bidData.FinancialProposal criteria.Criteria
      else F64.fin 0
    let totalScore :=
      weightedTotal build technicalScore commercialScore financialScore criteria
    Except.ok {
      BidID := bidData.ID
      TechnicalScore := technicalScore
      CommercialScore := commercialScore
      FinancialScore := financialScore
      TotalScore := totalScore
      Recommendation := recommendation totalScore
      RiskAssessment := riskAssessment totalScore }

/-- The value `scoreBid` gives a dimension (lines 121-136): the scorer's result
when the proposal document is not nil, and the zero value of `float64`
otherwise. -/
def dimensionScore (scorer : GoMap → GoMap → F64) (proposal criteria : GoMap) : F64 :=
  if proposal.isSome then scorer proposal criteria else F64.fin 0

/-! ## The scorers in the words of the specification -/

/-- The field `key` is present, numeric, and its value passes `test`. -/
def numericField (m : GoMap) (key : String) (test : F64 → Bool) : Bool :=
  match m.get key with
  | some (Value.num x) => test x
  | _ => false

/-- The field `key` is present, a list, and longer than `n`. -/
def listFieldLongerThan (m : GoMap) (key : String) (n : Nat) : Bool :=
  match m.get key with
  | some (Value.list xs) => decide (n < xs.length)
  | _ => false

/-- Clamp to at most 1.0. -/
def clampOne (x : F64) : F64 := if fgt x (F64.lit 1 1) then F64.lit 1 1 else x

/-- Specification of the technical score: base 0.7, plus 0.2 if `experience`
is numeric and > 5, plus 0.1 if `certifications` is a list of length > 3,
clamped to at most 1.0. -/
def technicalScoreSpec (proposal : GoMap) : F64 :=
  let base := F64.lit 7 10
  let withExperience :=
    if numericField proposal "experience" (fun e => fgt e (F64.lit 5 1)) then
      fadd base (F64.lit 2 10)
    else base
  let withCertifications :=
    if listFieldLongerThan proposal "certifications" 3 then
      fadd withExperience (F64.lit 1 10)
    else withExperience
  clampOne withCertifications

/-- Specification of the commercial score: base 0.6, plus 0.3 if
`deliveryTime` is numeric and <= 30, plus 0.1 if `warranty` is numeric and
>= 12, clamped to at most 1.0. -/
def commercialScoreSpec (proposal : GoMap) : F64 :=
  let base := F64.lit 6 10
  let withDelivery :=
    if numericField proposal "deliveryTime" (fun d => fle d (F64.lit 30 1)) then
      fadd base (F64.lit 3 10)
    else base
  let withWarranty :=
    if numericField proposal "warranty" (fun w => fge w (F64.lit 12 1)) then
      fadd withDelivery (F64.lit 1 10)
    else withDelivery
  clampOne withWarranty

/-! ## Sample inputs -/

/-- A technical proposal earning both bonuses: 6 years of experience and four
certifications. -/
def fullTechnicalProposal : GoMap :=
  some [("experience", Value.num (F64.lit 6 1)),
        ("certifications",
          Value.list [Value.str "a", Value.str "b", Value.str "c", Value.str "d"])]

/-- A commercial proposal whose `deliveryTime` is a string and whose `warranty`
is 24. -/
def stringDeliveryProposal : GoMap :=
  some [("deliveryTime", Value.str "two weeks"), ("warranty", Value.num (F64.lit 24 1))]

/-- The same commercial proposal without the `deliveryTime` field. -/
def noDeliveryProposal : GoMap :=
  some [("warranty", Value.num (F64.lit 24 1))]

/-- A bid with no proposal document at all. -/
def emptyBid : BidData :=
  { ID := "bid-1", TenderID := "tender-1", VendorID := "vendor-1",
    TechnicalProposal := none, CommercialProposal := none, FinancialProposal := none }

/-- The weights (0.5, 0.3, 0.2) with an empty criteria document. -/
def sampleCriteria : ScoringCriteria :=
  { TechnicalWeight := F64.lit 5 10, CommercialWeight := F64.lit 3 10,
    FinancialWeight := F64.lit 2 10, Criteria := some [] }

/-- A bid whose only document is a financial proposal with the given price. -/
def bidWithPrice (price : F64) : BidData :=
  { ID := "bid-2", TenderID := "tender-1", VendorID := "vendor-1",
    TechnicalProposal := none, CommercialProposal := none,
    FinancialProposal := some [("totalPrice", Value.num price)] }

/-- The weights (0, 0, 1): the total is the financial score. -/
def financialOnlyCriteria : ScoringCriteria :=
  { TechnicalWeight := F64.fin 0, CommercialWeight := F64.fin 0,
    FinancialWeight := F64.lit 1 1, Criteria := none }

/-- The result of scoring `bidWithPrice 50000` under the weights (0.5, 0.3, 0.2). -/
def resultPrice50000 : ScoreResult :=
  { BidID := "bid-2", TechnicalScore := F64.fin 0, CommercialScore := F64.fin 0,
    FinancialScore := F64.lit 1 1, TotalScore := F64.lit 2 10,
    Recommendation := "NOT_RECOMMENDED", RiskAssessment := "MEDIUM_RISK" }

/-- The result of scoring `bidWithPrice 200000` under the weights (0, 0, 1). -/
def resultPrice200000 : ScoreResult :=
  { BidID := "bid-2", TechnicalScore := F64.fin 0, CommercialScore := F64.fin 0,
    FinancialScore := F64.lit 8 10, TotalScore := F64.lit 8 10,
    Recommendation := "STRONGLY_RECOMMENDED", RiskAssessment := "LOW_RISK" }

/-- The weights (1, 1, 1), which do not sum to 1. -/
def unitCriteria : ScoringCriteria :=
  { TechnicalWeight := F64.lit 1 1, CommercialWeight := F64.lit 1 1,
    FinancialWeight := F64.lit 1 1, Criteria := none }

/-- The weights (2, 2, 2). -/
def doubleCriteria : ScoringCriteria :=
  { TechnicalWeight := F64.lit 2 1, CommercialWeight := F64.lit 2 1,
    FinancialWeight := F64.lit 2 1, Criteria := none }

/-- The result of scoring `bidWithPrice 50000` under the weights (2, 2, 2). -/
def resultDouble : ScoreResult :=
  { BidID := "bid-2", TechnicalScore := F64.fin 0, CommercialScore := F64.fin 0,
    FinancialScore := F64.lit 1 1, TotalScore := F64.lit 2 1,
    Recommendation := "STRONGLY_RECOMMENDED", RiskAssessment := "LOW_RISK" }

/-- Weights whose technical weight is NaN (not a finite `float64`). -/
def nanCriteria : ScoringCriteria :=
  { TechnicalWeight := F64.nan, CommercialWeight := F64.lit 3 10,
    FinancialWeight := F64.lit 2 10, Criteria := none }

/-- The result of scoring `emptyBid` under `nanCriteria`. -/
def resultNan : ScoreResult :=
  { BidID := "bid-1", TechnicalScore := F64.fin 0, CommercialScore := F64.fin 0,
    FinancialScore := F64.fin 0, TotalScore := F64.nan,
    Recommendation := "NOT_RECOMMENDED", RiskAssessment := "LOW_RISK" }

/-- A bid whose three documents are present and empty. -/
def emptyDocumentsBid : BidData :=
  { ID := "bid-3", TenderID := "tender-1", VendorID := "vendor-1",
    TechnicalProposal := some [], CommercialProposal := some [],
    FinancialProposal := some [] }

/-- The weights (0.35, 0.30, 0.35). -/
def thirdsCriteria : ScoringCriteria :=
  { TechnicalWeight := F64.lit 35 100, CommercialWeight := F64.lit 30 100,
    FinancialWeight := F64.lit 35 100, Criteria := none }

/-- A build that fuses the first product into the first addition. -/
def fusedLeftBuild : Build := { firstSum := FirstSum.fuseLeft, fuseSecond := false }

/-- The result of scoring `emptyDocumentsBid` under `thirdsCriteria` when
nothing is fused: the total is 0.5999999999999999. -/
def resultThirdsUnfused : ScoreResult :=
  { BidID := "bid-3", TechnicalScore := F64.lit 7 10, CommercialScore := F64.lit 6 10,
    FinancialScore := F64.lit 5 10,
    TotalScore := F64.lit 5999999999999999 10000000000000000,
    Recommendation := "CONDITIONAL", RiskAssessment := "MEDIUM_RISK" }

/-- The result of scoring `emptyDocumentsBid` under `thirdsCriteria` with
`fusedLeftBuild`: the total is 0.6. -/
def resultThirdsFused : ScoreResult :=
  { BidID := "bid-3", TechnicalScore := F64.lit 7 10, CommercialScore := F64.lit 6 10,
    FinancialScore := F64.lit 5 10, TotalScore := F64.lit 6 10,
    Recommendation := "RECOMMENDED", RiskAssessment := "LOW_RISK" }

/-! ## Comparison lemmas -/

set_option exponentiation.threshold 4000
set_option maxRecDepth 10000

/-! ## Checks of the binary64 model -/

/-- The constant 1.0 is `2^1074` units. -/
theorem lit_one : F64.lit 1 1 = F64.fin (Int.ofNat (2 ^ 1074)) := by
  rfl

/-- The constant 0.7 is `0x1.6666666666666p-1`, that is `6305039478318694 * 2^-53`. -/
theorem lit_seven_tenths :
    F64.lit 7 10 = F64.fin (Int.ofNat (6305039478318694 * 2 ^ 1021)) := by
  rfl

/-- The sum `0.1 + 0.2` is `0x1.3333333333334p-2` (0.30000000000000004), not
the constant 0.3. -/
theorem one_tenth_plus_two_tenths :
    fadd (F64.lit 1 10) (F64.lit 2 10) = F64.fin (Int.ofNat (5404319552844596 * 2 ^ 1020))
      ∧ fadd (F64.lit 1 10) (F64.lit 2 10) ≠ F64.lit 3 10 := by
  refine ⟨by rfl, ?_⟩
  decide

theorem flt_false_of_fle (a x : F64) (h : fle a x = true) : flt x a = false := by
  rcases a with _ | ⟨_ | _⟩ | a <;> rcases x with _ | ⟨_ | _⟩ | x <;> simp_all [fle, flt]

theorem fle_false_of_flt (x a : F64) (h : flt x a = true) : fle a x = false := by
  rcases a with _ | ⟨_ | _⟩ | a <;> rcases x with _ | ⟨_ | _⟩ | x <;> simp_all [fle, flt]

theorem flt_of_fle_of_flt (b x a : F64) (h₁ : fle b x = true) (h₂ : flt x a = true) :
    flt b a = true := by
  rcases a with _ | ⟨_ | _⟩ | a <;> rcases x with _ | ⟨_ | _⟩ | x <;>
    rcases b with _ | ⟨_ | _⟩ | b <;> simp_all [fle, flt]
  omega

theorem flt_trans (a b c : F64) (h₁ : flt a b = true) (h₂ : flt b c = true) :
    flt a c = true := by
  rcases a with _ | ⟨_ | _⟩ | a <;> rcases b with _ | ⟨_ | _⟩ | b <;>
    rcases c with _ | ⟨_ | _⟩ | c <;> simp_all [fle, flt]
  omega

theorem fle_of_flt_false (x c : F64) (hx : x ≠ F64.nan) (hc : c ≠ F64.nan)
    (h : flt x c = false) : fle c x = true := by
  rcases x with _ | ⟨_ | _⟩ | x <;> rcases c with _ | ⟨_ | _⟩ | c <;> simp_all [fle, flt]

theorem fle_refl_of_ne_nan (x : F64) (hx : x ≠ F64.nan) : fle x x = true := by
  rcases x with _ | ⟨_ | _⟩ | x <;> simp_all [fle]

/-- If `lo ≤ x` holds then `x < c` fails for every constant `c` with `¬ lo < c`. -/
theorem flt_false_of_fle_of_not_flt (lo x c : F64) (h : fle lo x = true)
    (hc : flt lo c = false) : flt x c = false := by
  cases hx : flt x c with
  | false => rfl
  | true => rw [flt_of_fle_of_flt lo x c h hx] at hc; cases hc

/-- If `x < hi` holds then `c ≤ x` fails for every constant `c` with `¬ c < hi`. -/
theorem fle_false_of_flt_of_not_flt (hi x c : F64) (h : flt x hi = true)
    (hc : flt c hi = false) : fle c x = false := by
  cases hx : fle c x with
  | false => rfl
  | true => rw [flt_of_fle_of_flt c x hi hx h] at hc; cases hc

theorem fle_trans (a b c : F64) (h₁ : fle a b = true) (h₂ : fle b c = true) :
    fle a c = true := by
  rcases a with _ | ⟨_ | _⟩ | a <;> rcases b with _ | ⟨_ | _⟩ | b <;>
    rcases c with _ | ⟨_ | _⟩ | c <;> simp_all [fle]
  omega

/-- If `c ≤ x` fails then `c' ≤ x` fails for every `c'` with `c ≤ c'`. -/
theorem fle_false_of_fle_false (c c' x : F64) (h : fle c x = false)
    (hc : fle c c' = true) : fle c' x = false := by
  cases hx : fle c' x with
  | false => rfl
  | true => rw [fle_trans c c' x hc hx] at h; cases h

/-- If `x < c` fails then `x < c'` fails for every `c'` with `c' < c`. -/
theorem flt_false_of_flt_false (c c' x : F64) (h : flt x c = false)
    (hc : flt c' c = true) : flt x c' = false := by
  cases hx : flt x c' with
  | false => rfl
  | true => rw [flt_trans x c' c hx hc] at h; cases h

theorem flt_of_flt_of_fle (a x b : F64) (h₁ : flt a x = true) (h₂ : fle x b = true) :
    flt a b = true := by
  rcases a with _ | ⟨_ | _⟩ | a <;> rcases x with _ | ⟨_ | _⟩ | x <;>
    rcases b with _ | ⟨_ | _⟩ | b <;> simp_all [fle, flt]
  omega

theorem ne_nan_of_fle_left (x b : F64) (h : fle x b = true) : x ≠ F64.nan := by
  rintro rfl
  simp [fle] at h

theorem ne_nan_of_fle_right (b x : F64) (h : fle b x = true) : x ≠ F64.nan := by
  rintro rfl
  rcases b with _ | ⟨_ | _⟩ | b <;> simp [fle] at h

theorem flt_of_fle_false (x c : F64) (hx : x ≠ F64.nan) (hc : c ≠ F64.nan)
    (h : fle x c = false) : flt c x = true := by
  rcases x with _ | ⟨_ | _⟩ | x <;> rcases c with _ | ⟨_ | _⟩ | c <;> simp_all [fle, flt]

/-! ## The two ladders -/

theorem riskAssessment_high (x : F64) (h : flt x (F64.lit 2 10) = true) :
    riskAssessment x = "HIGH_RISK" := by
  simp [riskAssessment, h]

theorem riskAssessment_medium (x : F64) (h₁ : flt x (F64.lit 2 10) = false)
    (h₂ : flt x (F64.lit 6 10) = true) : riskAssessment x = "MEDIUM_RISK" := by
  simp [riskAssessment, h₁, h₂]

theorem riskAssessment_low (x : F64) (h : flt x (F64.lit 6 10) = false) :
    riskAssessment x = "LOW_RISK" := by
  have h₁ : flt x (F64.lit 2 10) = false :=
    flt_false_of_flt_false (F64.lit 6 10) (F64.lit 2 10) x h (by decide)
  simp [riskAssessment, h₁, h]

theorem recommendation_strong (x : F64) (h : fle (F64.lit 8 10) x = true) :
    recommendation x = "STRONGLY_RECOMMENDED" := by
  simp [recommendation, fge, h]

theorem recommendation_recommended (x : F64) (h₁ : fle (F64.lit 8 10) x = false)
    (h₂ : fle (F64.lit 6 10) x = true) : recommendation x = "RECOMMENDED" := by
  simp [recommendation, fge, h₁, h₂]

theorem recommendation_conditional (x : F64) (h₁ : fle (F64.lit 6 10) x = false)
    (h₂ : fle (F64.lit 4 10) x = true) : recommendation x = "CONDITIONAL" := by
  have h₀ : fle (F64.lit 8 10) x = false :=
    fle_false_of_fle_false (F64.lit 6 10) (F64.lit 8 10) x h₁ (by decide)
  simp [recommendation, fge, h₀, h₁, h₂]

theorem recommendation_not (x : F64) (h : fle (F64.lit 4 10) x = false) :
    recommendation x = "NOT_RECOMMENDED" := by
  have h₁ : fle (F64.lit 6 10) x = false :=
    fle_false_of_fle_false (F64.lit 4 10) (F64.lit 6 10) x h (by decide)
  have h₀ : fle (F64.lit 8 10) x = false :=
    fle_false_of_fle_false (F64.lit 4 10) (F64.lit 8 10) x h (by decide)
  simp [recommendation, fge, h₀, h₁, h]

/-! ## The result record of `scoreBid` -/

theorem scoreBid_forbidden (build : Build) (bidData : BidData)
    (criteria : ScoringCriteria) (userRole : String)
    (h : userRole ≠ "USER" ∧ userRole ≠ "ADMIN") :
    scoreBid build bidData criteria userRole =
      Except.error "forbidden: insufficient permissions for scoring" := by
  unfold scoreBid
  rw [if_pos h]

theorem scoreBid_permitted (build : Build) (bidData : BidData)
    (criteria : ScoringCriteria) (userRole : String)
    (h : userRole = "USER" ∨ userRole = "ADMIN") :
    ∃ r, scoreBid build bidData criteria userRole = Except.ok r
      ∧ r.BidID = bidData.ID
      ∧ r.TechnicalScore =
          dimensionScore calculateTechnicalScore bidData.TechnicalProposal criteria.Criteria
      ∧ r.CommercialScore =
          dimensionScore calculateCommercialScore bidData.CommercialProposal criteria.Criteria
      ∧ r.FinancialScore =
          dimensionScore calculateFinancialScore bidData.FinancialProposal criteria.Criteria
      ∧ r.TotalScore =
          weightedTotal build r.TechnicalScore r.CommercialScore r.FinancialScore criteria
      ∧ r.Recommendation = recommendation r.TotalScore
      ∧ r.RiskAssessment = riskAssessment r.TotalScore := by
  have hn : ¬ (userRole ≠ "USER" ∧ userRole ≠ "ADMIN") := by
    rcases h with h | h <;> simp [h]
  unfold scoreBid
  rw [if_neg hn]
  exact ⟨_, rfl, rfl, rfl, rfl, rfl, rfl, rfl, rfl⟩

theorem scoreBid_ok_inv (build : Build) (bidData : BidData)
    (criteria : ScoringCriteria) (userRole : String)
    (r : ScoreResult) (h : scoreBid build bidData criteria userRole = Except.ok r) :
    (userRole = "USER" ∨ userRole = "ADMIN")
      ∧ r.TechnicalScore =
          dimensionScore calculateTechnicalScore bidData.TechnicalProposal criteria.Criteria
      ∧ r.CommercialScore =
          dimensionScore calculateCommercialScore bidData.CommercialProposal criteria.Criteria
      ∧ r.FinancialScore =
          dimensionScore calculateFinancialScore bidData.FinancialProposal criteria.Criteria
      ∧ r.TotalScore =
          weightedTotal build r.TechnicalScore r.CommercialScore r.FinancialScore criteria
      ∧ r.Recommendation = recommendation r.TotalScore
      ∧ r.RiskAssessment = riskAssessment r.TotalScore := by
  by_cases hp : userRole = "USER" ∨ userRole = "ADMIN"
  · obtain ⟨r', hr', -, h1, h2, h3, h4, h5, h6⟩ :=
      scoreBid_permitted build bidData criteria userRole hp
    rw [hr'] at h
    cases h
    exact ⟨hp, h1, h2, h3, h4, h5, h6⟩
  · have hf : userRole ≠ "USER" ∧ userRole ≠ "ADMIN" := by
      constructor
      · intro e; exact hp (Or.inl e)
      · intro e; exact hp (Or.inr e)
    rw [scoreBid_forbidden build bidData criteria userRole hf] at h
    cases h

/-! ## Authorization -/

/-- C1: `scoreBid` fails if and only if the role is neither exactly "USER" nor
exactly "ADMIN", the error then being the forbidden error; for "USER" and for
"ADMIN" it returns a result, whatever the bid and the criteria contain.  The
match is exact: "user", "Admin" and the empty role are refused. -/
theorem scoreBid_error_iff_role (build : Build) (bidData : BidData)
    (criteria : ScoringCriteria)
    (userRole : String) :
    ((∃ msg, scoreBid build bidData criteria userRole = Except.error msg) ↔
        (userRole ≠ "USER" ∧ userRole ≠ "ADMIN"))
      ∧ ((userRole ≠ "USER" ∧ userRole ≠ "ADMIN") →
          scoreBid build bidData criteria userRole =
            Except.error "forbidden: insufficient permissions for scoring")
      ∧ ((userRole = "USER" ∨ userRole = "ADMIN") →
          ∃ r, scoreBid build bidData criteria userRole = Except.ok r)
      ∧ (∃ msg, scoreBid build bidData criteria "user" = Except.error msg)
      ∧ (∃ msg, scoreBid build bidData criteria "Admin" = Except.error msg)
      ∧ (∃ msg, scoreBid build bidData criteria "" = Except.error msg) := by
  refine ⟨⟨?_, ?_⟩, scoreBid_forbidden build bidData criteria userRole, ?_, ?_, ?_, ?_⟩
  · rintro ⟨msg, hmsg⟩
    constructor
    · intro e
      obtain ⟨r, hr, -⟩ := scoreBid_permitted build bidData criteria userRole (Or.inl e)
      rw [hr] at hmsg
      cases hmsg
    · intro e
      obtain ⟨r, hr, -⟩ := scoreBid_permitted build bidData criteria userRole (Or.inr e)
      rw [hr] at hmsg
      cases hmsg
  · intro h
    exact ⟨_, scoreBid_forbidden build bidData criteria userRole h⟩
  · intro h
    obtain ⟨r, hr, -⟩ := scoreBid_permitted build bidData criteria userRole h
    exact ⟨r, hr⟩
  · exact ⟨_, scoreBid_forbidden build bidData criteria "user" (by decide)⟩
  · exact ⟨_, scoreBid_forbidden build bidData criteria "Admin" (by decide)⟩
  · exact ⟨_, scoreBid_forbidden build bidData criteria "" (by decide)⟩

/-- C1 at concrete inputs: the role "GUEST" is refused and the role "ADMIN" is
served, on the same bid and criteria. -/
theorem scoreBid_error_iff_role_witness :
    scoreBid Build.unfused emptyBid sampleCriteria "GUEST" =
        Except.error "forbidden: insufficient permissions for scoring"
      ∧ ∃ r, scoreBid Build.unfused emptyBid sampleCriteria "ADMIN" = Except.ok r :=
  ⟨(scoreBid_error_iff_role Build.unfused emptyBid sampleCriteria "GUEST").2.1 (by decide),
   (scoreBid_error_iff_role Build.unfused emptyBid sampleCriteria "ADMIN").2.2.1 (Or.inr rfl)⟩

/-! ## Risk and recommendation tiers -/

theorem scoreBid_price50000 (build : Build) :
    scoreBid build (bidWithPrice (F64.lit 50000 1)) sampleCriteria "USER" =
      Except.ok resultPrice50000 := by
  rcases build with ⟨_ | _ | _, _ | _⟩ <;> rfl

theorem scoreBid_price200000 (build : Build) :
    scoreBid build (bidWithPrice (F64.lit 200000 1)) financialOnlyCriteria "ADMIN" =
      Except.ok resultPrice200000 := by
  rcases build with ⟨_ | _ | _, _ | _⟩ <;> rfl

/-- C3: in every successful result of `scoreBid` the risk tier depends on the
total score alone (two results with the same total carry the same tier); it is
HIGH_RISK when total < 0.2, MEDIUM_RISK when 0.2 <= total < 0.6 and LOW_RISK
when total >= 0.6, so a total of exactly 0.2 is MEDIUM_RISK and a total of
exactly 0.6 is LOW_RISK. -/
theorem risk_by_total (build : Build) (bidData : BidData)
    (criteria : ScoringCriteria) (userRole : String)
    (r : ScoreResult) (h : scoreBid build bidData criteria userRole = Except.ok r) :
    (∀ (build' : Build) (bidData' : BidData) (criteria' : ScoringCriteria) (userRole' : String)
        (r' : ScoreResult), scoreBid build' bidData' criteria' userRole' = Except.ok r' →
        r'.TotalScore = r.TotalScore → r'.RiskAssessment = r.RiskAssessment)
      ∧ (flt r.TotalScore (F64.lit 2 10) = true → r.RiskAssessment = "HIGH_RISK")
      ∧ (fle (F64.lit 2 10) r.TotalScore = true → flt r.TotalScore (F64.lit 6 10) = true →
          r.RiskAssessment = "MEDIUM_RISK")
      ∧ (fge r.TotalScore (F64.lit 6 10) = true → r.RiskAssessment = "LOW_RISK")
      ∧ (r.TotalScore = F64.lit 2 10 → r.RiskAssessment = "MEDIUM_RISK")
      ∧ (r.TotalScore = F64.lit 6 10 → r.RiskAssessment = "LOW_RISK") := by
  obtain ⟨-, -, -, -, -, -, hrisk⟩ := scoreBid_ok_inv build bidData criteria userRole r h
  refine ⟨?_, ?_, ?_, ?_, ?_, ?_⟩
  · intro build' bidData' criteria' userRole' r' h' ht
    obtain ⟨-, -, -, -, -, -, hrisk'⟩ := scoreBid_ok_inv build' bidData' criteria' userRole' r' h'
    rw [hrisk, hrisk', ht]
  · intro hlt
    rw [hrisk]
    exact riskAssessment_high _ hlt
  · intro hle hlt
    rw [hrisk]
    exact riskAssessment_medium _ (flt_false_of_fle _ _ hle) hlt
  · intro hge
    rw [hrisk]
    exact riskAssessment_low _ (flt_false_of_fle _ _ hge)
  · intro ht
    rw [hrisk, ht]
    exact riskAssessment_medium _ (by decide) (by decide)
  · intro ht
    rw [hrisk, ht]
    exact riskAssessment_low _ (by decide)

/-- C3 at a concrete bid: a financial proposal priced 50000 under the weights
(0.5, 0.3, 0.2) totals exactly 0.2 and is rated MEDIUM_RISK. -/
theorem risk_by_total_witness :
    scoreBid Build.unfused (bidWithPrice (F64.lit 50000 1)) sampleCriteria "USER" =
        Except.ok resultPrice50000
      ∧ resultPrice50000.TotalScore = F64.lit 2 10
      ∧ resultPrice50000.RiskAssessment = "MEDIUM_RISK" :=
  ⟨scoreBid_price50000 Build.unfused, rfl,
    (risk_by_total Build.unfused (bidWithPrice (F64.lit 50000 1)) sampleCriteria "USER"
      resultPrice50000 (scoreBid_price50000 Build.unfused)).2.2.2.2.1 rfl⟩

/-- C4: in every successful result of `scoreBid` the recommendation depends on
the total score alone; it is STRONGLY_RECOMMENDED when total >= 0.8,
RECOMMENDED when 0.6 <= total < 0.8, CONDITIONAL when 0.4 <= total < 0.6 and
NOT_RECOMMENDED when total < 0.4, so totals of exactly 0.8, 0.6 and 0.4 give
STRONGLY_RECOMMENDED, RECOMMENDED and CONDITIONAL. -/
theorem recommendation_by_total (build : Build) (bidData : BidData)
    (criteria : ScoringCriteria)
    (userRole : String) (r : ScoreResult)
    (h : scoreBid build bidData criteria userRole = Except.ok r) :
    (∀ (build' : Build) (bidData' : BidData) (criteria' : ScoringCriteria) (userRole' : String)
        (r' : ScoreResult), scoreBid build' bidData' criteria' userRole' = Except.ok r' →
        r'.TotalScore = r.TotalScore → r'.Recommendation = r.Recommendation)
      ∧ (fge r.TotalScore (F64.lit 8 10) = true → r.Recommendation = "STRONGLY_RECOMMENDED")
      ∧ (fge r.TotalScore (F64.lit 6 10) = true → flt r.TotalScore (F64.lit 8 10) = true →
          r.Recommendation = "RECOMMENDED")
      ∧ (fge r.TotalScore (F64.lit 4 10) = true → flt r.TotalScore (F64.lit 6 10) = true →
          r.Recommendation = "CONDITIONAL")
      ∧ (flt r.TotalScore (F64.lit 4 10) = true → r.Recommendation = "NOT_RECOMMENDED")
      ∧ (r.TotalScore = F64.lit 8 10 → r.Recommendation = "STRONGLY_RECOMMENDED")
      ∧ (r.TotalScore = F64.lit 6 10 → r.Recommendation = "RECOMMENDED")
      ∧ (r.TotalScore = F64.lit 4 10 → r.Recommendation = "CONDITIONAL") := by
  obtain ⟨-, -, -, -, -, hrec, -⟩ := scoreBid_ok_inv build bidData criteria userRole r h
  refine ⟨?_, ?_, ?_, ?_, ?_, ?_, ?_, ?_⟩
  · intro build' bidData' criteria' userRole' r' h' ht
    obtain ⟨-, -, -, -, -, hrec', -⟩ := scoreBid_ok_inv build' bidData' criteria' userRole' r' h'
    rw [hrec, hrec', ht]
  · intro hge
    rw [hrec]
    exact recommendation_strong _ hge
  · intro hge hlt
    rw [hrec]
    exact recommendation_recommended _ (fle_false_of_flt _ _ hlt) hge
  · intro hge hlt
    rw [hrec]
    exact recommendation_conditional _ (fle_false_of_flt _ _ hlt) hge
  · intro hlt
    rw [hrec]
    exact recommendation_not _ (fle_false_of_flt _ _ hlt)
  · intro ht
    rw [hrec, ht]
    exact recommendation_strong _ (by decide)
  · intro ht
    rw [hrec, ht]
    exact recommendation_recommended _ (by decide) (by decide)
  · intro ht
    rw [hrec, ht]
    exact recommendation_conditional _ (by decide) (by decide)

/-- C4 at a concrete bid: a financial proposal priced 200000 under the weights
(0, 0, 1) totals exactly 0.8 and is STRONGLY_RECOMMENDED. -/
theorem recommendation_by_total_witness :
    scoreBid Build.unfused (bidWithPrice (F64.lit 200000 1)) financialOnlyCriteria "ADMIN" =
        Except.ok resultPrice200000
      ∧ resultPrice200000.TotalScore = F64.lit 8 10
      ∧ resultPrice200000.Recommendation = "STRONGLY_RECOMMENDED" :=
  ⟨scoreBid_price200000 Build.unfused, rfl,
    (recommendation_by_total Build.unfused (bidWithPrice (F64.lit 200000 1))
      financialOnlyCriteria "ADMIN" resultPrice200000
      (scoreBid_price200000 Build.unfused)).2.2.2.2.2.1 rfl⟩

/-! ## Aggregation -/

theorem scoreBid_emptyDocuments_unfused :
    scoreBid Build.unfused emptyDocumentsBid thirdsCriteria "USER" =
      Except.ok resultThirdsUnfused := by
  rfl

theorem scoreBid_emptyDocuments_fusedLeft :
    scoreBid fusedLeftBuild emptyDocumentsBid thirdsCriteria "USER" =
      Except.ok resultThirdsFused := by
  rfl

/-- The build matters: three empty documents under the weights
(0.35, 0.30, 0.35) total 0.5999999999999999 (MEDIUM_RISK, CONDITIONAL) when
nothing is fused, and 0.6 (LOW_RISK, RECOMMENDED) when the first product is
fused into the first addition. -/
theorem total_depends_on_build :
    resultThirdsUnfused.TotalScore = F64.fin (Int.ofNat (5404319552844594 * 2 ^ 1021))
      ∧ resultThirdsFused.TotalScore = F64.fin (Int.ofNat (5404319552844595 * 2 ^ 1021))
      ∧ resultThirdsUnfused.TotalScore ≠ resultThirdsFused.TotalScore := by
  refine ⟨by rfl, by rfl, ?_⟩
  decide

/-- C2: for a permitted role, under every build, the total of the result is
the value of `technical*TechnicalWeight + commercial*CommercialWeight +
financial*FinancialWeight` on the three scores of the same result, evaluated
in `float64` as the build evaluates it (each product rounded, or fused into
the addition that consumes it), for any weights; a build that fuses nothing
gives the left-to-right sum of the three rounded products.  Nothing clamps or
renormalises the total: under every build the weights (1, 1, 1) turn the
scores (1, 1, 1) into the total 3.  For the weights (0.5, 0.3, 0.2) the scores
(1.0, 1.0, 1.0) total exactly 1.0 under every build, which is
STRONGLY_RECOMMENDED and LOW_RISK. -/
theorem total_is_weighted_sum (build : Build) (bidData : BidData)
    (criteria : ScoringCriteria) (userRole : String)
    (h : userRole = "USER" ∨ userRole = "ADMIN") :
    (∃ r, scoreBid build bidData criteria userRole = Except.ok r
        ∧ r.TotalScore =
            weightedTotal build r.TechnicalScore r.CommercialScore r.FinancialScore criteria
        ∧ (build = Build.unfused →
            r.TotalScore =
              fadd (fadd (fmul r.TechnicalScore criteria.TechnicalWeight)
                  (fmul r.CommercialScore criteria.CommercialWeight))
                (fmul r.FinancialScore criteria.FinancialWeight)))
      ∧ weightedTotal build (F64.lit 1 1) (F64.lit 1 1) (F64.lit 1 1) unitCriteria = F64.lit 3 1
      ∧ weightedTotal build (F64.lit 1 1) (F64.lit 1 1) (F64.lit 1 1) sampleCriteria
          = F64.lit 1 1
      ∧ recommendation (F64.lit 1 1) = "STRONGLY_RECOMMENDED"
      ∧ riskAssessment (F64.lit 1 1) = "LOW_RISK" := by
  obtain ⟨r, hr, -, -, -, -, ht, -, -⟩ := scoreBid_permitted build bidData criteria userRole h
  refine ⟨⟨r, hr, ht, ?_⟩, ?_, ?_, ?_, ?_⟩
  · intro hb
    rw [ht, hb]
    rfl
  · rcases build with ⟨_ | _ | _, _ | _⟩ <;> rfl
  · rcases build with ⟨_ | _ | _, _ | _⟩ <;> rfl
  · exact recommendation_strong _ (by decide)
  · exact riskAssessment_low _ (by decide)

/-- C2 at a concrete bid and build: with nothing fused, the total of three
empty documents under the weights (0.35, 0.30, 0.35) is the left-to-right sum
of the three rounded products. -/
theorem total_is_weighted_sum_witness :
    ∃ r, scoreBid Build.unfused emptyDocumentsBid thirdsCriteria "USER" = Except.ok r
      ∧ r.TotalScore =
          fadd (fadd (fmul r.TechnicalScore thirdsCriteria.TechnicalWeight)
              (fmul r.CommercialScore thirdsCriteria.CommercialWeight))
            (fmul r.FinancialScore thirdsCriteria.FinancialWeight) :=
  let ⟨r, hr, _, hu⟩ :=
    (total_is_weighted_sum Build.unfused emptyDocumentsBid thirdsCriteria "USER"
      (Or.inl rfl)).1
  ⟨r, hr, hu rfl⟩

/-! ## Financial score -/

/-- C5: `calculateFinancialScore` is a step function of the `totalPrice`
field.  When the field is a number `p` the score is 1.0 if p <= 100000, 0.8 if
100000 < p <= 500000, 0.6 if 500000 < p <= 1000000 and 0.3 in every other
case; when the field is absent or not a number the score is the base 0.5.
Two proposals with the same `totalPrice` lookup score the same under any
criteria.  The prices 100000, 100001 and 1000001 score 1.0, 0.8 and 0.3. -/
theorem financial_step (proposal criteria : GoMap) :
    (∀ p, proposal.get "totalPrice" = some (Value.num p) →
        (fle p (F64.lit 100000 1) = true →
            calculateFinancialScore proposal criteria = F64.lit 1 1)
          ∧ (flt (F64.lit 100000 1) p = true → fle p (F64.lit 500000 1) = true →
              calculateFinancialScore proposal criteria = F64.lit 8 10)
          ∧ (flt (F64.lit 500000 1) p = true → fle p (F64.lit 1000000 1) = true →
              calculateFinancialScore proposal criteria = F64.lit 6 10)
          ∧ (fle p (F64.lit 100000 1) = false →
              ¬ (flt (F64.lit 100000 1) p = true ∧ fle p (F64.lit 500000 1) = true) →
              ¬ (flt (F64.lit 500000 1) p = true ∧ fle p (F64.lit 1000000 1) = true) →
              calculateFinancialScore proposal criteria = F64.lit 3 10))
      ∧ ((∀ p, proposal.get "totalPrice" ≠ some (Value.num p)) →
          calculateFinancialScore proposal criteria = F64.lit 5 10)
      ∧ (∀ proposal' criteria' : GoMap,
          proposal'.get "totalPrice" = proposal.get "totalPrice" →
          calculateFinancialScore proposal' criteria' =
            calculateFinancialScore proposal criteria)
      ∧ calculateFinancialScore (some [("totalPrice", Value.num (F64.lit 100000 1))]) criteria
          = F64.lit 1 1
      ∧ calculateFinancialScore (some [("totalPrice", Value.num (F64.lit 100001 1))]) criteria
          = F64.lit 8 10
      ∧ calculateFinancialScore (some [("totalPrice", Value.num (F64.lit 1000001 1))]) criteria
          = F64.lit 3 10 := by
  refine ⟨?_, ?_, ?_, by rfl, by rfl, by rfl⟩
  · intro p hp
    refine ⟨?_, ?_, ?_, ?_⟩
    · intro h1
      simp [calculateFinancialScore, hp, h1]
    · intro h1 h2
      have h3 : fle p (F64.lit 100000 1) = false := fle_false_of_flt _ _ h1
      simp [calculateFinancialScore, hp, h2, h3]
    · intro h1 h2
      have h3 : fle p (F64.lit 500000 1) = false := fle_false_of_flt _ _ h1
      have h4 : fle p (F64.lit 100000 1) = false := by
        cases hx : fle p (F64.lit 100000 1) with
        | false => rfl
        | true =>
          have := flt_of_flt_of_fle _ _ _ h1 hx
          revert this
          decide
      simp [calculateFinancialScore, hp, h2, h3, h4]
    · intro h1 h2 h3
      have hc1 : F64.lit 100000 1 ≠ F64.nan := by decide
      have hc2 : F64.lit 500000 1 ≠ F64.nan := by decide
      have h4 : fle p (F64.lit 500000 1) = false := by
        cases hx : fle p (F64.lit 500000 1) with
        | false => rfl
        | true =>
          exact absurd ⟨flt_of_fle_false p _ (ne_nan_of_fle_left _ _ hx) hc1 h1, hx⟩ h2
      have h5 : fle p (F64.lit 1000000 1) = false := by
        cases hx : fle p (F64.lit 1000000 1) with
        | false => rfl
        | true =>
          exact absurd ⟨flt_of_fle_false p _ (ne_nan_of_fle_left _ _ hx) hc2 h4, hx⟩ h3
      simp [calculateFinancialScore, hp, h1, h4, h5]
  · intro hnum
    unfold calculateFinancialScore
    split
    · rename_i p hp
      exact absurd hp (hnum p)
    · rfl
  · intro proposal' criteria' hsame
    unfold calculateFinancialScore
    rw [hsame]

/-- C5 at a concrete proposal: the price 300000 lies in the second step and
scores 0.8. -/
theorem financial_step_witness :
    calculateFinancialScore (some [("totalPrice", Value.num (F64.lit 300000 1))]) none
      = F64.lit 8 10 :=
  ((financial_step (some [("totalPrice", Value.num (F64.lit 300000 1))]) none).1
    (F64.lit 300000 1) rfl).2.1 (by decide) (by decide)

/-! ## Technical and commercial scores -/

theorem calculateTechnicalScore_eq_spec (proposal criteria : GoMap) :
    calculateTechnicalScore proposal criteria = technicalScoreSpec proposal := by
  unfold calculateTechnicalScore technicalScoreSpec numericField listFieldLongerThan clampOne
  generalize proposal.get "experience" = e
  generalize proposal.get "certifications" = c
  rcases e with _ | (_ | _ | _ | _ | _ | _) <;> rcases c with _ | (_ | _ | _ | _ | _ | _) <;>
    first | rfl | simp

theorem calculateCommercialScore_eq_spec (proposal criteria : GoMap) :
    calculateCommercialScore proposal criteria = commercialScoreSpec proposal := by
  unfold calculateCommercialScore commercialScoreSpec numericField clampOne
  generalize proposal.get "deliveryTime" = d
  generalize proposal.get "warranty" = w
  rcases d with _ | (_ | _ | _ | _ | _ | _) <;> rcases w with _ | (_ | _ | _ | _ | _ | _) <;>
    rfl

theorem technicalScoreSpec_range (proposal : GoMap) :
    fle (F64.fin 0) (technicalScoreSpec proposal) = true
      ∧ fle (technicalScoreSpec proposal) (F64.lit 1 1) = true := by
  unfold technicalScoreSpec
  cases numericField proposal "experience" (fun e => fgt e (F64.lit 5 1)) <;>
    cases listFieldLongerThan proposal "certifications" 3 <;> decide

theorem commercialScoreSpec_range (proposal : GoMap) :
    fle (F64.fin 0) (commercialScoreSpec proposal) = true
      ∧ fle (commercialScoreSpec proposal) (F64.lit 1 1) = true := by
  unfold commercialScoreSpec
  cases numericField proposal "deliveryTime" (fun d => fle d (F64.lit 30 1)) <;>
    cases numericField proposal "warranty" (fun w => fge w (F64.lit 12 1)) <;> decide

theorem numericField_eq_false (m : GoMap) (key : String) (test : F64 → Bool)
    (h : ∀ x, m.get key ≠ some (Value.num x)) : numericField m key test = false := by
  unfold numericField
  split
  · rename_i x hx
    exact absurd hx (h x)
  · rfl

theorem listFieldLongerThan_eq_false (m : GoMap) (key : String) (n : Nat)
    (h : ∀ xs, m.get key ≠ some (Value.list xs)) : listFieldLongerThan m key n = false := by
  unfold listFieldLongerThan
  split
  · rename_i xs hxs
    exact absurd hxs (h xs)
  · rfl

/-- C6, as stated, fails: a proposal with `experience` 6 and four
certifications earns both bonuses, and `0.7 + 0.2 + 0.1` evaluated in
`float64` is 0.9999999999999999 (that is `1 - 2^-53`, here `2^1074 - 2^1021`
units of `2^-1074`), strictly below 1.0; the clamp does not fire and the score
is not 1.0. -/
theorem technical_both_bonuses_not_one :
    calculateTechnicalScore fullTechnicalProposal none =
        F64.lit 9999999999999999 10000000000000000
      ∧ calculateTechnicalScore fullTechnicalProposal none = F64.fin (Int.ofNat (2 ^ 1074 - 2 ^ 1021))
      ∧ flt (calculateTechnicalScore fullTechnicalProposal none) (F64.lit 1 1) = true
      ∧ calculateTechnicalScore fullTechnicalProposal none ≠ F64.lit 1 1 := by
  refine ⟨by rfl, by rfl, by rfl, ?_⟩
  decide

/-- C6, amended: `calculateTechnicalScore` is the base 0.7, plus 0.2 if
`experience` is present, numeric and > 5, plus 0.1 if `certifications` is
present, a list and longer than 3, clamped to at most 1.0, every sum being a
`float64` sum.  A field that is absent or of the wrong type earns no bonus, so
a proposal with neither field right scores exactly 0.7.  The experience bonus
alone gives 0.8999999999999999, the certification bonus alone
0.7999999999999999, and both bonuses give 0.9999999999999999, the largest
`float64` below 1.0. -/
theorem technical_score_formula (proposal criteria : GoMap) :
    calculateTechnicalScore proposal criteria = technicalScoreSpec proposal
      ∧ fle (calculateTechnicalScore proposal criteria) (F64.lit 1 1) = true
      ∧ ((∀ e, proposal.get "experience" ≠ some (Value.num e)) →
          (∀ xs, proposal.get "certifications" ≠ some (Value.list xs)) →
          calculateTechnicalScore proposal criteria = F64.lit 7 10)
      ∧ (numericField proposal "experience" (fun e => fgt e (F64.lit 5 1)) = false →
          listFieldLongerThan proposal "certifications" 3 = false →
          calculateTechnicalScore proposal criteria = F64.lit 7 10)
      ∧ (numericField proposal "experience" (fun e => fgt e (F64.lit 5 1)) = true →
          listFieldLongerThan proposal "certifications" 3 = false →
          calculateTechnicalScore proposal criteria = F64.lit 8999999999999999 10000000000000000)
      ∧ (numericField proposal "experience" (fun e => fgt e (F64.lit 5 1)) = false →
          listFieldLongerThan proposal "certifications" 3 = true →
          calculateTechnicalScore proposal criteria = F64.lit 7999999999999999 10000000000000000)
      ∧ (numericField proposal "experience" (fun e => fgt e (F64.lit 5 1)) = true →
          listFieldLongerThan proposal "certifications" 3 = true →
          calculateTechnicalScore proposal criteria = F64.lit 9999999999999999 10000000000000000)
      ∧ calculateTechnicalScore (some []) criteria = F64.lit 7 10
      ∧ calculateTechnicalScore none criteria = F64.lit 7 10 := by
  have hspec := calculateTechnicalScore_eq_spec proposal criteria
  have hval : ∀ b₁ b₂ : Bool,
      numericField proposal "experience" (fun e => fgt e (F64.lit 5 1)) = b₁ →
      listFieldLongerThan proposal "certifications" 3 = b₂ →
      technicalScoreSpec proposal =
        clampOne
          (if b₂ = true then
            fadd (if b₁ = true then fadd (F64.lit 7 10) (F64.lit 2 10) else F64.lit 7 10)
              (F64.lit 1 10)
          else if b₁ = true then fadd (F64.lit 7 10) (F64.lit 2 10) else F64.lit 7 10) := by
    intro b₁ b₂ h₁ h₂
    unfold technicalScoreSpec
    rw [h₁, h₂]
  refine ⟨hspec, ?_, ?_, ?_, ?_, ?_, ?_, by rfl, by rfl⟩
  · rw [hspec]
    exact (technicalScoreSpec_range proposal).2
  · intro h₁ h₂
    rw [hspec, hval false false (numericField_eq_false _ _ _ h₁)
      (listFieldLongerThan_eq_false _ _ _ h₂)]
    rfl
  · intro h₁ h₂
    rw [hspec, hval false false h₁ h₂]
    rfl
  · intro h₁ h₂
    rw [hspec, hval true false h₁ h₂]
    rfl
  · intro h₁ h₂
    rw [hspec, hval false true h₁ h₂]
    rfl
  · intro h₁ h₂
    rw [hspec, hval true true h₁ h₂]
    rfl

/-- C6 amended, at a concrete proposal: `fullTechnicalProposal` earns both
bonuses and scores 0.9999999999999999. -/
theorem technical_score_formula_witness :
    calculateTechnicalScore fullTechnicalProposal none =
      F64.lit 9999999999999999 10000000000000000 :=
  (technical_score_formula fullTechnicalProposal none).2.2.2.2.2.2.1 (by rfl) (by rfl)

/-- C7: `calculateCommercialScore` is the base 0.6, plus 0.3 if `deliveryTime`
is present, numeric and <= 30, plus 0.1 if `warranty` is present, numeric and
>= 12, clamped to at most 1.0 (sums in `float64`).  A field that is present
but not a number counts as absent: it raises nothing (the function is total)
and the score equals that of any proposal in which the field is missing and
the other field is the same.  A proposal with no fields scores exactly 0.6. -/
theorem commercial_score_formula (proposal criteria : GoMap) :
    calculateCommercialScore proposal criteria = commercialScoreSpec proposal
      ∧ fle (calculateCommercialScore proposal criteria) (F64.lit 1 1) = true
      ∧ (∀ proposal' criteria' : GoMap,
          (∀ d, proposal.get "deliveryTime" ≠ some (Value.num d)) →
          proposal'.get "deliveryTime" = none →
          proposal'.get "warranty" = proposal.get "warranty" →
          calculateCommercialScore proposal criteria =
            calculateCommercialScore proposal' criteria')
      ∧ (∀ proposal' criteria' : GoMap,
          (∀ w, proposal.get "warranty" ≠ some (Value.num w)) →
          proposal'.get "warranty" = none →
          proposal'.get "deliveryTime" = proposal.get "deliveryTime" →
          calculateCommercialScore proposal criteria =
            calculateCommercialScore proposal' criteria')
      ∧ ((∀ d, proposal.get "deliveryTime" ≠ some (Value.num d)) →
          (∀ w, proposal.get "warranty" ≠ some (Value.num w)) →
          calculateCommercialScore proposal criteria = F64.lit 6 10)
      ∧ calculateCommercialScore (some []) criteria = F64.lit 6 10
      ∧ calculateCommercialScore none criteria = F64.lit 6 10 := by
  have hspec := calculateCommercialScore_eq_spec proposal criteria
  refine ⟨hspec, ?_, ?_, ?_, ?_, by rfl, by rfl⟩
  · rw [hspec]
    exact (commercialScoreSpec_range proposal).2
  · intro proposal' criteria' hd hd' hw
    have h₁ := numericField_eq_false proposal "deliveryTime"
      (fun d => fle d (F64.lit 30 1)) hd
    have h₂ : numericField proposal' "deliveryTime" (fun d => fle d (F64.lit 30 1)) = false :=
      numericField_eq_false _ _ _ (by intro d; rw [hd']; simp)
    have h₃ : numericField proposal' "warranty" (fun w => fge w (F64.lit 12 1)) =
        numericField proposal "warranty" (fun w => fge w (F64.lit 12 1)) := by
      unfold numericField
      rw [hw]
    rw [hspec, calculateCommercialScore_eq_spec proposal' criteria']
    unfold commercialScoreSpec
    rw [h₁, h₂, h₃]
  · intro proposal' criteria' hw hw' hd
    have h₁ := numericField_eq_false proposal "warranty"
      (fun w => fge w (F64.lit 12 1)) hw
    have h₂ : numericField proposal' "warranty" (fun w => fge w (F64.lit 12 1)) = false :=
      numericField_eq_false _ _ _ (by intro w; rw [hw']; simp)
    have h₃ : numericField proposal' "deliveryTime" (fun d => fle d (F64.lit 30 1)) =
        numericField proposal "deliveryTime" (fun d => fle d (F64.lit 30 1)) := by
      unfold numericField
      rw [hd]
    rw [hspec, calculateCommercialScore_eq_spec proposal' criteria']
    unfold commercialScoreSpec
    rw [h₁, h₂, h₃]
  · intro hd hw
    rw [hspec]
    unfold commercialScoreSpec
    rw [numericField_eq_false _ _ _ hd, numericField_eq_false _ _ _ hw]
    rfl

/-- C7 at a concrete proposal: a string `deliveryTime` scores like a missing
`deliveryTime`. -/
theorem commercial_score_formula_witness :
    calculateCommercialScore stringDeliveryProposal none =
      calculateCommercialScore noDeliveryProposal none :=
  (commercial_score_formula stringDeliveryProposal none).2.2.1 noDeliveryProposal none
    (by intro d; simp [stringDeliveryProposal, GoMap.get, List.lookup]) (by rfl) (by rfl)

/-! ## Absent documents and the range of the dimension scores -/

theorem calculateFinancialScore_range (proposal criteria : GoMap) :
    fle (F64.fin 0) (calculateFinancialScore proposal criteria) = true
      ∧ fle (calculateFinancialScore proposal criteria) (F64.lit 1 1) = true := by
  unfold calculateFinancialScore
  split
  · split_ifs <;> decide
  · decide

theorem dimensionScore_range (scorer : GoMap → GoMap → F64) (proposal criteria : GoMap)
    (h : fle (F64.fin 0) (scorer proposal criteria) = true
      ∧ fle (scorer proposal criteria) (F64.lit 1 1) = true) :
    fle (F64.fin 0) (dimensionScore scorer proposal criteria) = true
      ∧ fle (dimensionScore scorer proposal criteria) (F64.lit 1 1) = true := by
  unfold dimensionScore
  split
  · exact h
  · decide

theorem scoreBid_price50000_double (build : Build) :
    scoreBid build (bidWithPrice (F64.lit 50000 1)) doubleCriteria "USER" =
      Except.ok resultDouble := by
  rcases build with ⟨_ | _ | _, _ | _⟩ <;> rfl

/-- C8: for a permitted role `scoreBid` succeeds, and a proposal document that
is absent (nil) gives its dimension the score 0.0; removing a document from a
bid sets that dimension to 0.0 and leaves the other two dimension scores as
they were.  The 0.0 is not the base score of the scorer: on a nil or empty
document the three scorers themselves return 0.7, 0.6 and 0.5. -/
theorem absent_document_scores_zero (build : Build) (bidData : BidData)
    (criteria : ScoringCriteria)
    (userRole : String) (h : userRole = "USER" ∨ userRole = "ADMIN") :
    ∃ r, scoreBid build bidData criteria userRole = Except.ok r
      ∧ (bidData.TechnicalProposal = none → r.TechnicalScore = F64.fin 0)
      ∧ (bidData.CommercialProposal = none → r.CommercialScore = F64.fin 0)
      ∧ (bidData.FinancialProposal = none → r.FinancialScore = F64.fin 0)
      ∧ (∃ r', scoreBid build { bidData with TechnicalProposal := none } criteria userRole
            = Except.ok r'
          ∧ r'.TechnicalScore = F64.fin 0
          ∧ r'.CommercialScore = r.CommercialScore
          ∧ r'.FinancialScore = r.FinancialScore)
      ∧ (∃ r', scoreBid build { bidData with CommercialProposal := none } criteria userRole
            = Except.ok r'
          ∧ r'.TechnicalScore = r.TechnicalScore
          ∧ r'.CommercialScore = F64.fin 0
          ∧ r'.FinancialScore = r.FinancialScore)
      ∧ (∃ r', scoreBid build { bidData with FinancialProposal := none } criteria userRole
            = Except.ok r'
          ∧ r'.TechnicalScore = r.TechnicalScore
          ∧ r'.CommercialScore = r.CommercialScore
          ∧ r'.FinancialScore = F64.fin 0)
      ∧ calculateTechnicalScore none criteria.Criteria = F64.lit 7 10
      ∧ calculateCommercialScore none criteria.Criteria = F64.lit 6 10
      ∧ calculateFinancialScore none criteria.Criteria = F64.lit 5 10
      ∧ F64.fin 0 ≠ F64.lit 7 10 ∧ F64.fin 0 ≠ F64.lit 6 10 ∧ F64.fin 0 ≠ F64.lit 5 10 := by
  obtain ⟨r, hr, -, ht, hc, hf, -, -, -⟩ := scoreBid_permitted build bidData criteria userRole h
  obtain ⟨r₁, hr₁, -, ht₁, hc₁, hf₁, -, -, -⟩ :=
    scoreBid_permitted build { bidData with TechnicalProposal := none } criteria userRole h
  obtain ⟨r₂, hr₂, -, ht₂, hc₂, hf₂, -, -, -⟩ :=
    scoreBid_permitted build { bidData with CommercialProposal := none } criteria userRole h
  obtain ⟨r₃, hr₃, -, ht₃, hc₃, hf₃, -, -, -⟩ :=
    scoreBid_permitted build { bidData with FinancialProposal := none } criteria userRole h
  refine ⟨r, hr, ?_, ?_, ?_, ⟨r₁, hr₁, ?_, ?_, ?_⟩, ⟨r₂, hr₂, ?_, ?_, ?_⟩,
    ⟨r₃, hr₃, ?_, ?_, ?_⟩, by rfl, by rfl, by rfl, by decide, by decide, by decide⟩
  · intro hn
    rw [ht, hn]
    rfl
  · intro hn
    rw [hc, hn]
    rfl
  · intro hn
    rw [hf, hn]
    rfl
  · rw [ht₁]; rfl
  · rw [hc₁, hc]
  · rw [hf₁, hf]
  · rw [ht₂, ht]
  · rw [hc₂]; rfl
  · rw [hf₂, hf]
  · rw [ht₃, ht]
  · rw [hc₃, hc]
  · rw [hf₃]; rfl

/-- C8 at a concrete bid: `emptyBid` has no document at all; it is scored
without error for the role USER and its three dimension scores are 0.0. -/
theorem absent_document_scores_zero_witness :
    ∃ r, scoreBid Build.unfused emptyBid sampleCriteria "USER" = Except.ok r
      ∧ r.TechnicalScore = F64.fin 0 ∧ r.CommercialScore = F64.fin 0
      ∧ r.FinancialScore = F64.fin 0 :=
  let ⟨r, hr, ht, hc, hf, _⟩ :=
    absent_document_scores_zero Build.unfused emptyBid sampleCriteria "USER" (Or.inl rfl)
  ⟨r, hr, ht rfl, hc rfl, hf rfl⟩

/-- C9: for a permitted role each of the three dimension scores of the result
lies in the closed interval [0, 1], whatever the weights and the documents;
the total is not so bounded (the weights (2, 2, 2) give a bid priced 50000 the
total 2.0).  This holds for every build. -/
theorem dimension_scores_in_unit_interval (build : Build) (bidData : BidData)
    (criteria : ScoringCriteria)
    (userRole : String) (h : userRole = "USER" ∨ userRole = "ADMIN") :
    (∃ r, scoreBid build bidData criteria userRole = Except.ok r
        ∧ fle (F64.fin 0) r.TechnicalScore = true ∧ fle r.TechnicalScore (F64.lit 1 1) = true
        ∧ fle (F64.fin 0) r.CommercialScore = true ∧ fle r.CommercialScore (F64.lit 1 1) = true
        ∧ fle (F64.fin 0) r.FinancialScore = true ∧ fle r.FinancialScore (F64.lit 1 1) = true)
      ∧ scoreBid build (bidWithPrice (F64.lit 50000 1)) doubleCriteria "USER" =
          Except.ok resultDouble
      ∧ resultDouble.TotalScore = F64.lit 2 1
      ∧ flt (F64.lit 1 1) resultDouble.TotalScore = true := by
  obtain ⟨r, hr, -, ht, hc, hf, -, -, -⟩ := scoreBid_permitted build bidData criteria userRole h
  have h₁ := dimensionScore_range calculateTechnicalScore bidData.TechnicalProposal
    criteria.Criteria (by
      rw [calculateTechnicalScore_eq_spec]
      exact technicalScoreSpec_range _)
  have h₂ := dimensionScore_range calculateCommercialScore bidData.CommercialProposal
    criteria.Criteria (by
      rw [calculateCommercialScore_eq_spec]
      exact commercialScoreSpec_range _)
  have h₃ := dimensionScore_range calculateFinancialScore bidData.FinancialProposal
    criteria.Criteria (calculateFinancialScore_range _ _)
  rw [← ht] at h₁
  rw [← hc] at h₂
  rw [← hf] at h₃
  exact ⟨⟨r, hr, h₁.1, h₁.2, h₂.1, h₂.2, h₃.1, h₃.2⟩, scoreBid_price50000_double build, rfl,
    by decide⟩

/-- C9 at a concrete bid: the scores of a bid priced 200000 lie in [0, 1]. -/
theorem dimension_scores_in_unit_interval_witness :
    ∃ r, scoreBid Build.unfused (bidWithPrice (F64.lit 200000 1)) unitCriteria "ADMIN" =
        Except.ok r
      ∧ fle (F64.fin 0) r.FinancialScore = true ∧ fle r.FinancialScore (F64.lit 1 1) = true :=
  let ⟨r, hr, _, _, _, _, h₁, h₂⟩ :=
    (dimension_scores_in_unit_interval Build.unfused (bidWithPrice (F64.lit 200000 1))
      unitCriteria "ADMIN" (Or.inr rfl)).1
  ⟨r, hr, h₁, h₂⟩

/-! ## Consistency of the two tiers -/

theorem riskAssessment_low_iff (x : F64) :
    riskAssessment x = "LOW_RISK" ↔ flt x (F64.lit 6 10) = false := by
  constructor
  · intro h
    cases h6 : flt x (F64.lit 6 10) with
    | false => rfl
    | true =>
      cases h2 : flt x (F64.lit 2 10) with
      | true =>
        rw [riskAssessment_high x h2] at h
        revert h
        decide
      | false =>
        rw [riskAssessment_medium x h2 h6] at h
        revert h
        decide
  · exact riskAssessment_low x

theorem riskAssessment_high_iff (x : F64) :
    riskAssessment x = "HIGH_RISK" ↔ flt x (F64.lit 2 10) = true := by
  constructor
  · intro h
    cases h2 : flt x (F64.lit 2 10) with
    | true => rfl
    | false =>
      cases h6 : flt x (F64.lit 6 10) with
      | true =>
        rw [riskAssessment_medium x h2 h6] at h
        revert h
        decide
      | false =>
        rw [riskAssessment_low x h6] at h
        revert h
        decide
  · exact riskAssessment_high x

theorem recommendation_positive_iff (x : F64) :
    (recommendation x = "RECOMMENDED" ∨ recommendation x = "STRONGLY_RECOMMENDED") ↔
      fle (F64.lit 6 10) x = true := by
  constructor
  · intro h
    cases h6 : fle (F64.lit 6 10) x with
    | true => rfl
    | false =>
      cases h4 : fle (F64.lit 4 10) x with
      | true =>
        rw [recommendation_conditional x h6 h4] at h
        revert h
        decide
      | false =>
        rw [recommendation_not x h4] at h
        revert h
        decide
  · intro h6
    cases h8 : fle (F64.lit 8 10) x with
    | true => exact Or.inr (recommendation_strong x h8)
    | false => exact Or.inl (recommendation_recommended x h8 h6)

theorem recommendation_conditional_inv (x : F64) (h : recommendation x = "CONDITIONAL") :
    fle (F64.lit 6 10) x = false ∧ fle (F64.lit 4 10) x = true := by
  cases h6 : fle (F64.lit 6 10) x with
  | true =>
    rcases (recommendation_positive_iff x).2 h6 with h' | h'
    · rw [h'] at h
      exact absurd h (by decide)
    · rw [h'] at h
      exact absurd h (by decide)
  | false =>
    cases h4 : fle (F64.lit 4 10) x with
    | true => exact ⟨rfl, rfl⟩
    | false =>
      rw [recommendation_not x h4] at h
      revert h
      decide

/-! ## Finite weights give a total that is not NaN -/

theorem rne_le (n D K : Nat) (hD : 0 < D) (h : n ≤ K * D) : rne n D ≤ K := by
  have hq : n / D ≤ K := by
    rw [Nat.mul_comm] at h
    exact Nat.div_le_of_le_mul h
  have hdm := Nat.div_add_mod n D
  have hmod := Nat.mod_lt n hD
  unfold rne
  rcases Nat.lt_or_eq_of_le hq with hlt | heq
  · simp only []
    split
    · omega
    · split
      · omega
      · split <;> omega
  · have hr : n % D = 0 := by
      rw [heq, Nat.mul_comm] at hdm
      omega
    simp only [hr, heq]
    rw [if_pos (by omega)]

theorem excessBits_le (fuel : Nat) : ∀ q m : Nat, q < 2 ^ 53 * 2 ^ m → excessBits fuel q ≤ m := by
  induction fuel with
  | zero => intro q m _; simp [excessBits]
  | succ fuel ih =>
    intro q m h
    unfold excessBits
    split
    · omega
    · rename_i hq
      cases m with
      | zero => simp at h; omega
      | succ m =>
        have h2 : q / 2 < 2 ^ 53 * 2 ^ m := by
          rw [Nat.pow_succ] at h
          omega
        have := ih (q / 2) m h2
        omega

theorem roundMag_le (n d M : Nat) (hd : 0 < d) (h : n ≤ (2 ^ 53 - 1) * 2 ^ M * d) :
    roundMag n d ≤ (2 ^ 53 - 1) * 2 ^ M := by
  have hq : n / d ≤ (2 ^ 53 - 1) * 2 ^ M := by
    rw [Nat.mul_comm] at h
    exact Nat.div_le_of_le_mul h
  have hpos : 0 < 2 ^ M := Nat.pow_pos (by decide)
  have hs : excessBits (n / d) (n / d) ≤ M := by
    apply excessBits_le
    have : (2 ^ 53 - 1) * 2 ^ M < 2 ^ 53 * 2 ^ M :=
      Nat.mul_lt_mul_of_pos_right (by decide) hpos
    omega
  unfold roundMag
  simp only []
  generalize excessBits (n / d) (n / d) = s at hs
  have hK : (2 ^ 53 - 1) * 2 ^ (M - s) * 2 ^ s = (2 ^ 53 - 1) * 2 ^ M := by
    rw [Nat.mul_assoc, ← Nat.pow_add, Nat.sub_add_cancel hs]
  have hn : n ≤ (2 ^ 53 - 1) * 2 ^ (M - s) * (d * 2 ^ s) := by
    rw [← hK] at h
    calc n ≤ (2 ^ 53 - 1) * 2 ^ (M - s) * 2 ^ s * d := h
      _ = (2 ^ 53 - 1) * 2 ^ (M - s) * (d * 2 ^ s) := by
        rw [Nat.mul_assoc, Nat.mul_comm (2 ^ s) d]
  have hr := rne_le n (d * 2 ^ s) _ (Nat.mul_pos hd (Nat.pow_pos (by decide))) hn
  calc rne n (d * 2 ^ s) * 2 ^ s ≤ (2 ^ 53 - 1) * 2 ^ (M - s) * 2 ^ s :=
        Nat.mul_le_mul_right _ hr
    _ = (2 ^ 53 - 1) * 2 ^ M := hK

theorem round_ne_nan (neg : Bool) (n d : Nat) : F64.round neg n d ≠ F64.nan := by
  unfold F64.round
  simp only []
  split <;> simp

theorem round_fin_of_le (neg : Bool) (n d : Nat)
    (h : roundMag n d ≤ (2 ^ 53 - 1) * 2 ^ 2045) : ∃ k, F64.round neg n d = F64.fin k := by
  have hlt : roundMag n d < 2 ^ 2098 := Nat.lt_of_le_of_lt h (by decide)
  unfold F64.round
  simp only []
  rw [if_neg (Nat.not_le.mpr hlt)]
  exact ⟨_, rfl⟩

/-- The product of a score in [0, 1] and a finite weight is finite. -/
theorem fmul_fin_of_unit (a w : Int) (h₀ : 0 ≤ a) (h₁ : a ≤ Int.ofNat (2 ^ 1074))
    (hw : w.natAbs ≤ (2 ^ 53 - 1) * 2 ^ 2045) : ∃ p, fmul (F64.fin a) (F64.fin w) = F64.fin p := by
  have ha : a.natAbs ≤ 2 ^ 1074 := by
    have h₂ : ((a.natAbs : Nat) : Int) = a := Int.natAbs_of_nonneg h₀
    rw [← h₂] at h₁
    exact Int.ofNat_le.mp h₁
  have hn : (a * w).natAbs ≤ (2 ^ 53 - 1) * 2 ^ 2045 * 2 ^ 1074 := by
    rw [Int.natAbs_mul, Nat.mul_comm]
    exact Nat.mul_le_mul hw ha
  exact round_fin_of_le _ _ _ (roundMag_le _ _ 2045 (Nat.pow_pos (by decide)) hn)

theorem fadd_fin_ne_nan (x : F64) (b : Int) (hx : x ≠ F64.nan) :
    fadd x (F64.fin b) ≠ F64.nan := by
  rcases x with _ | _ | a
  · exact absurd rfl hx
  · simp [fadd]
  · exact round_ne_nan _ _ _

theorem ffma_fin_ne_nan (a b : Int) (z : F64) (hz : z ≠ F64.nan) :
    ffma (F64.fin a) (F64.fin b) z ≠ F64.nan := by
  rcases z with _ | _ | c
  · exact absurd rfl hz
  · simp [ffma]
  · exact round_ne_nan _ _ _

theorem fin_of_unit_interval (x : F64) (h₀ : fle (F64.fin 0) x = true)
    (h₁ : fle x (F64.lit 1 1) = true) :
    ∃ a, x = F64.fin a ∧ 0 ≤ a ∧ a ≤ Int.ofNat (2 ^ 1074) := by
  rw [lit_one] at h₁
  rcases x with _ | ⟨_ | _⟩ | a
  · simp [fle] at h₀
  · simp [fle] at h₁
  · simp [fle] at h₀
  · simp only [fle, decide_eq_true_eq] at h₀ h₁
    exact ⟨a, rfl, h₀, h₁⟩

theorem isFinite_fin (w : F64) (h : w.isFinite = true) :
    ∃ k : Int, w = F64.fin k ∧ k.natAbs ≤ (2 ^ 53 - 1) * 2 ^ 2045 := by
  rcases w with _ | _ | k
  · simp [F64.isFinite] at h
  · simp [F64.isFinite] at h
  · simp only [F64.isFinite, decide_eq_true_eq] at h
    exact ⟨k, rfl, h⟩

/-- With dimension scores in [0, 1] and finite weights the weighted total is not
NaN, whatever the build fuses. -/
theorem weightedTotal_ne_nan (build : Build) (t c f : F64) (criteria : ScoringCriteria)
    (ht : fle (F64.fin 0) t = true ∧ fle t (F64.lit 1 1) = true)
    (hc : fle (F64.fin 0) c = true ∧ fle c (F64.lit 1 1) = true)
    (hf : fle (F64.fin 0) f = true ∧ fle f (F64.lit 1 1) = true)
    (hwt : criteria.TechnicalWeight.isFinite = true)
    (hwc : criteria.CommercialWeight.isFinite = true)
    (hwf : criteria.FinancialWeight.isFinite = true) :
    weightedTotal build t c f criteria ≠ F64.nan := by
  obtain ⟨a₁, rfl, h₁, h₁'⟩ := fin_of_unit_interval t ht.1 ht.2
  obtain ⟨a₂, rfl, h₂, h₂'⟩ := fin_of_unit_interval c hc.1 hc.2
  obtain ⟨a₃, rfl, h₃, h₃'⟩ := fin_of_unit_interval f hf.1 hf.2
  obtain ⟨w₁, hw₁, hb₁⟩ := isFinite_fin _ hwt
  obtain ⟨w₂, hw₂, hb₂⟩ := isFinite_fin _ hwc
  obtain ⟨w₃, hw₃, hb₃⟩ := isFinite_fin _ hwf
  obtain ⟨p₁, hp₁⟩ := fmul_fin_of_unit a₁ w₁ h₁ h₁' hb₁
  obtain ⟨p₂, hp₂⟩ := fmul_fin_of_unit a₂ w₂ h₂ h₂' hb₂
  obtain ⟨p₃, hp₃⟩ := fmul_fin_of_unit a₃ w₃ h₃ h₃' hb₃
  unfold weightedTotal
  rw [hw₁, hw₂, hw₃, hp₁, hp₂, hp₃]
  have hfirst : (match build.firstSum with
      | FirstSum.separate => fadd (F64.fin p₁) (F64.fin p₂)
      | FirstSum.fuseLeft => ffma (F64.fin a₁) (F64.fin w₁) (F64.fin p₂)
      | FirstSum.fuseRight => ffma (F64.fin a₂) (F64.fin w₂) (F64.fin p₁)) ≠ F64.nan := by
    rcases build.firstSum with _ | _ | _
    · exact fadd_fin_ne_nan _ _ (by simp)
    · exact ffma_fin_ne_nan _ _ _ (by simp)
    · exact ffma_fin_ne_nan _ _ _ (by simp)
  simp only []
  split
  · exact ffma_fin_ne_nan _ _ _ hfirst
  · exact fadd_fin_ne_nan _ _ hfirst

theorem scoreBid_emptyBid_nan (build : Build) :
    scoreBid build emptyBid nanCriteria "USER" = Except.ok resultNan := by
  rcases build with ⟨_ | _ | _, _ | _⟩ <;> rfl

/-- The weights have to be finite: a NaN technical weight, which no JSON
document can carry, makes the total of `emptyBid` NaN (0.0 * NaN); every
comparison of the two ladders is then false and the result is LOW_RISK
together with NOT_RECOMMENDED. -/
theorem tiers_need_finite_weights (build : Build) :
    scoreBid build emptyBid nanCriteria "USER" = Except.ok resultNan
      ∧ nanCriteria.TechnicalWeight.isFinite = false
      ∧ resultNan.TotalScore = F64.nan
      ∧ resultNan.RiskAssessment = "LOW_RISK"
      ∧ resultNan.Recommendation = "NOT_RECOMMENDED" :=
  ⟨scoreBid_emptyBid_nan build, rfl, rfl, rfl, rfl⟩

/-- C10: in every successful result of `scoreBid`, under every build, for
finite weights (the `float64` values a JSON document can carry), the two tiers
never contradict each other: the total is not NaN, the risk tier is LOW_RISK
if and only if the recommendation is RECOMMENDED or STRONGLY_RECOMMENDED, a
HIGH_RISK result is NOT_RECOMMENDED and a CONDITIONAL result is MEDIUM_RISK. -/
theorem tiers_consistent (build : Build) (bidData : BidData) (criteria : ScoringCriteria)
    (userRole : String) (r : ScoreResult)
    (h : scoreBid build bidData criteria userRole = Except.ok r)
    (hwt : criteria.TechnicalWeight.isFinite = true)
    (hwc : criteria.CommercialWeight.isFinite = true)
    (hwf : criteria.FinancialWeight.isFinite = true) :
    r.TotalScore ≠ F64.nan
      ∧ (r.RiskAssessment = "LOW_RISK" ↔
          (r.Recommendation = "RECOMMENDED" ∨ r.Recommendation = "STRONGLY_RECOMMENDED"))
      ∧ (r.RiskAssessment = "HIGH_RISK" → r.Recommendation = "NOT_RECOMMENDED")
      ∧ (r.Recommendation = "CONDITIONAL" → r.RiskAssessment = "MEDIUM_RISK") := by
  obtain ⟨-, ht, hc, hf, htot, hrec, hrisk⟩ :=
    scoreBid_ok_inv build bidData criteria userRole r h
  have h₁ := dimensionScore_range calculateTechnicalScore bidData.TechnicalProposal
    criteria.Criteria (by
      rw [calculateTechnicalScore_eq_spec]
      exact technicalScoreSpec_range _)
  have h₂ := dimensionScore_range calculateCommercialScore bidData.CommercialProposal
    criteria.Criteria (by
      rw [calculateCommercialScore_eq_spec]
      exact commercialScoreSpec_range _)
  have h₃ := dimensionScore_range calculateFinancialScore bidData.FinancialProposal
    criteria.Criteria (calculateFinancialScore_range _ _)
  rw [← ht] at h₁
  rw [← hc] at h₂
  rw [← hf] at h₃
  have hnan : r.TotalScore ≠ F64.nan := by
    rw [htot]
    exact weightedTotal_ne_nan build _ _ _ criteria h₁ h₂ h₃ hwt hwc hwf
  rw [hrec, hrisk]
  have hc6 : F64.lit 6 10 ≠ F64.nan := by decide
  refine ⟨hnan, ?_, ?_, ?_⟩
  · rw [riskAssessment_low_iff, recommendation_positive_iff]
    exact ⟨fle_of_flt_false _ _ hnan hc6, flt_false_of_fle _ _⟩
  · intro hhigh
    have h2 := (riskAssessment_high_iff _).1 hhigh
    exact recommendation_not _
      (fle_false_of_flt_of_not_flt (F64.lit 2 10) _ (F64.lit 4 10) h2 (by decide))
  · intro hcond
    obtain ⟨h6, h4⟩ := recommendation_conditional_inv _ hcond
    have hlt6 : flt r.TotalScore (F64.lit 6 10) = true :=
      flt_of_fle_false (F64.lit 6 10) r.TotalScore hc6 hnan h6
    exact riskAssessment_medium _
      (flt_false_of_fle_of_not_flt (F64.lit 4 10) _ (F64.lit 2 10) h4 (by decide)) hlt6

/-- C10 at a concrete bid: a bid priced 200000 under the finite weights
(0, 0, 1) totals 0.8 and is both LOW_RISK and STRONGLY_RECOMMENDED. -/
theorem tiers_consistent_witness :
    scoreBid Build.unfused (bidWithPrice (F64.lit 200000 1)) financialOnlyCriteria "ADMIN" =
        Except.ok resultPrice200000
      ∧ resultPrice200000.TotalScore ≠ F64.nan
      ∧ (resultPrice200000.RiskAssessment = "LOW_RISK" ↔
          (resultPrice200000.Recommendation = "RECOMMENDED"
            ∨ resultPrice200000.Recommendation = "STRONGLY_RECOMMENDED")) :=
  have hw :=
    tiers_consistent Build.unfused (bidWithPrice (F64.lit 200000 1)) financialOnlyCriteria
      "ADMIN" resultPrice200000 (scoreBid_price200000 Build.unfused) (by decide) (by decide)
      (by decide)
  ⟨scoreBid_price200000 Build.unfused, hw.1, hw.2.1⟩

end GoScoring
